import Mathlib

/-!
Verification of the advisor-agent core of `src/lambda/advisor_agent/app.py`:
the risk scorer (`compute_risk` with its three threshold-ladder helpers) and
the recommendation builder (`build_recommendations`).

Modelling choices:
- Python `float` values are modelled as `ℚ` (all scores in the source are
  exact decimal literals, so no precision is lost).
- A request payload (Python `dict`) is modelled as an association list from
  `String` to `PyVal`, a small sum type of the JSON-decoded Python values a
  payload entry can hold.
- Python `int(x)` / `float(x)` coercions are fallible: they are modelled as
  `Except String` computations (`pyInt` / `pyFloat`), raising on `None` and
  on strings that do not parse as a number.  String parsing is approximated
  by integer parsing of the trimmed string; this is enough to distinguish
  numeric strings (which coerce) from non-numeric ones (which raise), which
  is all the properties below depend on.
- Each source function is split into its coercion layer (acting on the
  payload, in the source's evaluation order) and a pure core acting on the
  coerced numbers; the coercion layer short-circuits on the first failing
  coercion exactly as Python's left-to-right evaluation does.
-/

/-- A JSON-decoded Python value that can appear in the request payload. -/
inductive PyVal where
  | int (n : ℤ)
  | float (q : ℚ)
  | str (s : String)
  | bool (b : Bool)
  | none
deriving DecidableEq, Repr

/-- The request payload: Python `dict` modelled as an association list. -/
def Payload : Type := List (String × PyVal)

/-- Python `payload.get(key, default)`. -/
def Payload.getD (p : Payload) (key : String) (default : PyVal) : PyVal :=
  match List.find? (fun kv => kv.1 == key) p with
  | some kv => kv.2
  | Option.none => default

/-- Python `int(x)`: identity on ints, truncation toward zero on floats,
`True`/`False` to `1`/`0`, integer parsing of (trimmed) strings, and an
exception on `None` and on non-numeric strings. -/
def pyInt : PyVal → Except String ℤ
  | PyVal.int n => Except.ok n
  | PyVal.float q => Except.ok (if 0 ≤ q then q.floor else q.ceil)
  | PyVal.bool b => Except.ok (if b then 1 else 0)
  | PyVal.str s =>
      match (s.trim).toInt? with
      | some n => Except.ok n
      | Option.none => Except.error ("invalid literal for int()")
  | PyVal.none => Except.error ("int() argument must not be None")

/-- Python `float(x)`: ints and bools embed into `ℚ`, floats are kept,
numeric strings parse (approximated by integer parsing), and `None` and
non-numeric strings raise. -/
def pyFloat : PyVal → Except String ℚ
  | PyVal.int n => Except.ok (n : ℚ)
  | PyVal.float q => Except.ok q
  | PyVal.bool b => Except.ok (if b then 1 else 0)
  | PyVal.str s =>
      match (s.trim).toInt? with
      | some n => Except.ok ((n : ℚ))
      | Option.none => Except.error ("could not convert string to float")
  | PyVal.none => Except.error ("float() argument must not be None")

/-- The process-wide classification threshold, at its default value `0.75`
(the source reads it from the environment once at process start). -/
def RISK_THRESHOLD : ℚ := (75/100 : ℚ)

/-- The inactivity threshold ladder `_days_inactive_to_score`. -/
def _days_inactive_to_score (days_inactive : ℚ) : ℚ × Option String :=
  if days_inactive ≥ 7 then ((30/100 : ℚ), some ("Inactive 7+ days"))
  else if days_inactive ≥ 4 then ((18/100 : ℚ), some ("Inactive 4+ days"))
  else if days_inactive ≥ 2 then ((8/100 : ℚ), some ("Inactive 2+ days"))
  else ((0 : ℚ), Option.none)

/-- The missing-assignments threshold ladder `_missing_to_score`. -/
def _missing_to_score (missing_14d : ℤ) : ℚ × Option String :=
  if missing_14d ≥ 3 then ((35/100 : ℚ), some ("3+ missing assignments (14d)"))
  else if missing_14d = 2 then ((25/100 : ℚ), some ("2 missing assignments (14d)"))
  else if missing_14d = 1 then ((15/100 : ℚ), some ("1 missing assignment (14d)"))
  else ((0 : ℚ), Option.none)

/-- The grade threshold ladder `_grade_to_score`. -/
def _grade_to_score (avg_grade_pct : ℤ) : ℚ × Option String :=
  if avg_grade_pct < 70 then ((35/100 : ℚ), some ("Average grade < 70%"))
  else if avg_grade_pct < 80 then ((20/100 : ℚ), some ("Average grade < 80%"))
  else if avg_grade_pct < 85 then ((10/100 : ℚ), some ("Average grade < 85%"))
  else ((0 : ℚ), Option.none)

/-- Python `if f: factors.append(f)` for `f : str | None`: append exactly when
`f` is truthy, i.e. a non-`None`, non-empty string. -/
def appendFactor (factors : List String) : Option String → List String
  | Option.none => factors
  | some f => if f = "" then factors else factors ++ [f]

/-- The body of `compute_risk` after its three coercion lines: sum the three
partial scores (missing, grade, inactivity — in source order), collect the
truthy factors in the same order, and clamp the sum at `1.0`. -/
def compute_risk_core (missing_14d avg_grade_pct : ℤ) (days_inactive : ℚ) :
    ℚ × List String :=
  let sm := _missing_to_score missing_14d
  let sg := _grade_to_score avg_grade_pct
  let sd := _days_inactive_to_score days_inactive
  let score := sm.1 + sg.1 + sd.1
  let factors := appendFactor (appendFactor (appendFactor [] sm.2) sg.2) sd.2
  (min score 1, factors)

/-- `compute_risk(payload)`: coerce the three signals in source order
(`int(payload.get("missing_14d", 0))`, then `avg_grade_pct`, then
`float(payload.get("days_inactive", 0))`), propagating the first coercion
failure, then run the pure scoring core. -/
def compute_risk (payload : Payload) : Except String (ℚ × List String) :=
  match pyInt (payload.getD ("missing_14d") (PyVal.int 0)),
        pyInt (payload.getD ("avg_grade_pct") (PyVal.int 0)),
        pyFloat (payload.getD ("days_inactive") (PyVal.int 0)) with
  | Except.ok m, Except.ok g, Except.ok d => Except.ok (compute_risk_core m g d)
  | Except.error e, _, _ => Except.error e
  | _, Except.error e, _ => Except.error e
  | _, _, Except.error e => Except.error e

/-- The body of `build_recommendations` after its four coercion lines: the
six condition-guarded blocks of appends, in source order. -/
def build_recommendations_core (missing_14d avg_grade_pct : ℤ)
    (days_inactive : ℚ) (submitted_14d : ℤ) (risk_score : ℚ)
    (factors : List String) : List String :=
  (if missing_14d > 0 then
    ["Make a 48-hour plan to complete the missing assignments (start with the highest-weight items).",
     "Email the instructor to confirm deadlines and ask what to prioritize first."]
   else [])
  ++ (if avg_grade_pct < 80 then
    ["Block 45–60 minutes daily for targeted practice on weak topics (quiz + review mistakes).",
     "Attend office hours or tutoring this week with 3 specific questions prepared."]
   else [])
  ++ (if days_inactive ≥ 4 then
    ["Log in today and complete one small task (discussion post, quiz attempt, or reading notes) to restart momentum."]
   else [])
  ++ (if risk_score ≥ RISK_THRESHOLD then
    ["Create a weekly schedule: 3 study sessions + 1 catch-up session, and track completion.",
     "Use active recall: summarize each module in 5 bullets, then self-test without notes."]
   else
    ["Keep current pace—set one weekly checkpoint to ensure no assignments are missed."])
  ++ (if submitted_14d = 0 then
    ["Start with the easiest assignment to build confidence, then move to the next due item."]
   else [])
  ++ (if factors ≠ [] then
    ["Why this plan: " ++ String.intercalate (", ") factors ++ "."]
   else [])

/-- `build_recommendations(payload, risk_score, factors)`: coerce the four
signals in source order (`missing_14d`, `avg_grade_pct`, `days_inactive`,
`submitted_14d`), propagating the first coercion failure, then run the pure
builder core. -/
def build_recommendations (payload : Payload) (risk_score : ℚ)
    (factors : List String) : Except String (List String) :=
  match pyInt (payload.getD ("missing_14d") (PyVal.int 0)),
        pyInt (payload.getD ("avg_grade_pct") (PyVal.int 0)),
        pyFloat (payload.getD ("days_inactive") (PyVal.int 0)),
        pyInt (payload.getD ("submitted_14d") (PyVal.int 0)) with
  | Except.ok m, Except.ok g, Except.ok d, Except.ok sub =>
      Except.ok (build_recommendations_core m g d sub risk_score factors)
  | Except.error e, _, _, _ => Except.error e
  | _, Except.error e, _, _ => Except.error e
  | _, _, Except.error e, _ => Except.error e
  | _, _, _, Except.error e => Except.error e

/-- The handler's classification: `"HIGH" if risk >= RISK_THRESHOLD else "LOW"`. -/
def risk_level (risk : ℚ) : String :=
  if risk ≥ RISK_THRESHOLD then "HIGH" else "LOW"

/-! ### Basic lemmas about the embedding -/

/-- The score component of `compute_risk_core` is the clamped sum of the
three ladder scores. -/
lemma compute_risk_core_fst (m g : ℤ) (d : ℚ) :
    (compute_risk_core m g d).1 =
      min ((_missing_to_score m).1 + (_grade_to_score g).1 +
        (_days_inactive_to_score d).1) 1 := rfl

/-- The factor component of `compute_risk_core` is the chain of truthy
appends in source order. -/
lemma compute_risk_core_snd (m g : ℤ) (d : ℚ) :
    (compute_risk_core m g d).2 =
      appendFactor (appendFactor (appendFactor [] (_missing_to_score m).2)
        (_grade_to_score g).2) (_days_inactive_to_score d).2 := rfl

lemma missing_score_nonneg (m : ℤ) : 0 ≤ (_missing_to_score m).1 := by
  unfold _missing_to_score
  split_ifs <;> norm_num

lemma grade_score_nonneg (g : ℤ) : 0 ≤ (_grade_to_score g).1 := by
  unfold _grade_to_score
  split_ifs <;> norm_num

lemma days_score_nonneg (d : ℚ) : 0 ≤ (_days_inactive_to_score d).1 := by
  unfold _days_inactive_to_score
  split_ifs <;> norm_num

lemma missing_score_mono {m m' : ℤ} (h : m ≤ m') :
    (_missing_to_score m).1 ≤ (_missing_to_score m').1 := by
  unfold _missing_to_score
  split_ifs <;> norm_num <;> omega

lemma grade_score_anti {g g' : ℤ} (h : g' ≤ g) :
    (_grade_to_score g).1 ≤ (_grade_to_score g').1 := by
  unfold _grade_to_score
  split_ifs <;> norm_num <;> omega

lemma days_score_mono {d d' : ℚ} (h : d ≤ d') :
    (_days_inactive_to_score d).1 ≤ (_days_inactive_to_score d').1 := by
  unfold _days_inactive_to_score
  split_ifs <;> norm_num <;> linarith

/-- A key that `find?` misses makes `getD` return its default. -/
lemma getD_of_find_none {p : Payload} {k : String} {d : PyVal}
    (h : List.find? (fun kv => kv.1 == k) p = Option.none) :
    p.getD k d = d := by
  unfold Payload.getD
  rw [h]

/-- Inversion for `compute_risk`: a successful run is the pure core applied
to some coerced signal values. -/
lemma compute_risk_ok_inv {p : Payload} {r : ℚ × List String}
    (h : compute_risk p = Except.ok r) :
    ∃ m g d, r = compute_risk_core m g d := by
  unfold compute_risk at h
  cases h1 : pyInt (p.getD ("missing_14d") (PyVal.int 0)) <;>
    cases h2 : pyInt (p.getD ("avg_grade_pct") (PyVal.int 0)) <;>
      cases h3 : pyFloat (p.getD ("days_inactive") (PyVal.int 0)) <;>
        rw [h1, h2, h3] at h <;> simp at h
  exact ⟨_, _, _, h.symm⟩

/-- Inversion for `build_recommendations`: a successful run is the pure core
applied to some coerced signal values. -/
lemma build_recommendations_ok_inv {p : Payload} {risk : ℚ}
    {factors recs : List String}
    (h : build_recommendations p risk factors = Except.ok recs) :
    ∃ m g d sub, recs = build_recommendations_core m g d sub risk factors := by
  unfold build_recommendations at h
  cases h1 : pyInt (p.getD ("missing_14d") (PyVal.int 0)) <;>
    cases h2 : pyInt (p.getD ("avg_grade_pct") (PyVal.int 0)) <;>
      cases h3 : pyFloat (p.getD ("days_inactive") (PyVal.int 0)) <;>
        cases h4 : pyInt (p.getD ("submitted_14d") (PyVal.int 0)) <;>
          rw [h1, h2, h3, h4] at h <;> simp at h
  exact ⟨_, _, _, _, h.symm⟩

/-! ### Claim theorems -/

/-- Claim C1: for every input signal set, a successful `compute_risk` run
returns a risk score in the closed interval `[0, 1]`. -/
theorem risk_score_in_unit_interval (p : Payload) (r : ℚ × List String)
    (h : compute_risk p = Except.ok r) : 0 ≤ r.1 ∧ r.1 ≤ 1 := by
  obtain ⟨m, g, d, rfl⟩ := compute_risk_ok_inv h
  rw [compute_risk_core_fst]
  have h1 := missing_score_nonneg m
  have h2 := grade_score_nonneg g
  have h3 := days_score_nonneg d
  exact ⟨le_min (by linarith) zero_le_one, min_le_right _ _⟩

/-- Witness for C1 at the empty payload. -/
theorem risk_score_in_unit_interval_witness :
    0 ≤ (((35/100 : ℚ), [("Average grade < 70%")]) : ℚ × List String).1 ∧
      (((35/100 : ℚ), [("Average grade < 70%")]) : ℚ × List String).1 ≤ 1 :=
  risk_score_in_unit_interval [] ((35/100 : ℚ), [("Average grade < 70%")]) (by
    norm_num [compute_risk, compute_risk_core, _missing_to_score, _grade_to_score,
      _days_inactive_to_score, appendFactor, Payload.getD, pyInt, pyFloat]
    all_goals decide)

/-- Claim C4: the risk score is monotone in each signal's severity — jointly,
a signal set with at least as many missing assignments, at most the same
grade, and at least the same inactivity scores at least as high. -/
theorem risk_score_monotone (m m' g g' : ℤ) (d d' : ℚ)
    (hm : m ≤ m') (hg : g' ≤ g) (hd : d ≤ d') :
    (compute_risk_core m g d).1 ≤ (compute_risk_core m' g' d').1 := by
  rw [compute_risk_core_fst, compute_risk_core_fst]
  have h1 := missing_score_mono hm
  have h2 := grade_score_anti hg
  have h3 := days_score_mono hd
  exact min_le_min (by linarith) le_rfl

/-- Witness for C4: raising `missing_14d` from 2 to 3. -/
theorem risk_score_monotone_witness :
    (compute_risk_core 2 80 0).1 ≤ (compute_risk_core 3 80 0).1 :=
  risk_score_monotone 2 3 80 80 0 0 (by norm_num) (le_refl 80) (le_refl 0)

/-- Claim C5: the grade ladder is first-match-only (65 yields exactly the
single `< 70%` factor) and the boundary values 70, 80, 85 fall into the
lower-severity band. -/
theorem grade_ladder_first_match_and_boundaries :
    _grade_to_score 65 = ((35/100 : ℚ), some ("Average grade < 70%")) ∧
    (compute_risk_core 0 65 0).2 = [("Average grade < 70%")] ∧
    _grade_to_score 70 = ((20/100 : ℚ), some ("Average grade < 80%")) ∧
    _grade_to_score 80 = ((10/100 : ℚ), some ("Average grade < 85%")) ∧
    _grade_to_score 85 = ((0 : ℚ), Option.none) := by
  norm_num [_grade_to_score, compute_risk_core, _missing_to_score,
    _days_inactive_to_score, appendFactor]
  all_goals decide

/-- Claim C7: the scorer and builder are deterministic — equal inputs give
equal outputs (both are pure functions of their arguments; no randomness or
clock appears in the embedding because none appears in the source logic). -/
theorem scorer_builder_deterministic (p p' : Payload) (risk : ℚ)
    (factors : List String) (h : p = p') :
    compute_risk p = compute_risk p' ∧
    build_recommendations p risk factors = build_recommendations p' risk factors := by
  subst h
  exact ⟨rfl, rfl⟩

/-- Witness for C7 at the empty payload. -/
theorem scorer_builder_deterministic_witness :
    compute_risk [] = compute_risk [] ∧
    build_recommendations [] 0 [] = build_recommendations [] 0 [] :=
  scorer_builder_deterministic [] [] 0 [] rfl

/-- Claim C9: negative inputs are asymmetric across the ladders — negative
`missing_14d` and `days_inactive` score 0 with no factor, while any negative
`avg_grade_pct` lands in the lowest grade band (0.35, `< 70%`). -/
theorem negative_signals_asymmetric (m g : ℤ) (d : ℚ)
    (hm : m < 0) (hg : g < 0) (hd : d < 0) :
    _missing_to_score m = ((0 : ℚ), Option.none) ∧
    _days_inactive_to_score d = ((0 : ℚ), Option.none) ∧
    _grade_to_score g = ((35/100 : ℚ), some ("Average grade < 70%")) := by
  refine ⟨?_, ?_, ?_⟩
  · unfold _missing_to_score
    rw [if_neg (by intro hc; omega), if_neg (by intro hc; omega),
      if_neg (by intro hc; omega)]
  · unfold _days_inactive_to_score
    rw [if_neg (by intro hc; linarith), if_neg (by intro hc; linarith),
      if_neg (by intro hc; linarith)]
  · unfold _grade_to_score
    rw [if_pos (by omega)]

/-- Witness for C9 at the value -1 for each signal. -/
theorem negative_signals_asymmetric_witness :
    _missing_to_score (-1) = ((0 : ℚ), Option.none) ∧
    _days_inactive_to_score (-1) = ((0 : ℚ), Option.none) ∧
    _grade_to_score (-1) = ((35/100 : ℚ), some ("Average grade < 70%")) :=
  negative_signals_asymmetric (-1) (-1) (-1) (by norm_num) (by norm_num) (by norm_num)

/-- Claim C8: the factor list of the scorer has length at most 3 and is
empty exactly when the risk score is 0. -/
theorem factors_bounded_and_empty_iff_zero (m g : ℤ) (d : ℚ) :
    (compute_risk_core m g d).2.length ≤ 3 ∧
      ((compute_risk_core m g d).2 = [] ↔ (compute_risk_core m g d).1 = 0) := by
  rw [compute_risk_core_fst, compute_risk_core_snd]
  unfold _missing_to_score _grade_to_score _days_inactive_to_score
  split_ifs <;> simp [appendFactor] <;> norm_num [min_def]

/-- The pure builder core always emits at least the study-plan step. -/
lemma build_recommendations_core_ne_nil (m g : ℤ) (d : ℚ) (sub : ℤ)
    (risk : ℚ) (factors : List String) :
    build_recommendations_core m g d sub risk factors ≠ [] := by
  unfold build_recommendations_core
  split_ifs <;> simp

/-- Claim C10: every successful `build_recommendations` run returns a
non-empty list. -/
theorem recommendations_nonempty (p : Payload) (risk : ℚ)
    (factors recs : List String)
    (h : build_recommendations p risk factors = Except.ok recs) : recs ≠ [] := by
  obtain ⟨m, g, d, sub, rfl⟩ := build_recommendations_ok_inv h
  exact build_recommendations_core_ne_nil m g d sub risk factors

/-- Witness for C10 at the empty payload. -/
theorem recommendations_nonempty_witness :
    (["Block 45–60 minutes daily for targeted practice on weak topics (quiz + review mistakes).",
      "Attend office hours or tutoring this week with 3 specific questions prepared.",
      "Keep current pace—set one weekly checkpoint to ensure no assignments are missed.",
      "Start with the easiest assignment to build confidence, then move to the next due item."] :
      List String) ≠ [] :=
  recommendations_nonempty [] 0 [] _ (by
    norm_num [build_recommendations, build_recommendations_core, Payload.getD,
      pyInt, pyFloat, RISK_THRESHOLD])

/-- Claim C2 counterexample: the empty payload does not score 0 with no
factors (the default grade 0 lands in the lowest grade band). -/
theorem empty_payload_not_zero :
    compute_risk [] ≠ Except.ok ((0 : ℚ), ([] : List String)) := by
  norm_num [compute_risk, compute_risk_core, _missing_to_score, _grade_to_score,
    _days_inactive_to_score, appendFactor, Payload.getD, pyInt, pyFloat]

/-- Claim C2 (amended): the empty payload scores 0.35 with the single factor
`"Average grade < 70%"`, and the builder then returns the grade-practice
pair, the steady-pace checkpoint, the start-with-easiest string, and the
"Why this plan" line, in that order. -/
theorem empty_payload_behaviour :
    compute_risk [] = Except.ok ((35/100 : ℚ), [("Average grade < 70%")]) ∧
    build_recommendations [] (35/100) [("Average grade < 70%")] = Except.ok
      ["Block 45–60 minutes daily for targeted practice on weak topics (quiz + review mistakes).",
       "Attend office hours or tutoring this week with 3 specific questions prepared.",
       "Keep current pace—set one weekly checkpoint to ensure no assignments are missed.",
       "Start with the easiest assignment to build confidence, then move to the next due item.",
       "Why this plan: Average grade < 70%."] := by
  constructor
  · norm_num [compute_risk, compute_risk_core, _missing_to_score, _grade_to_score,
      _days_inactive_to_score, appendFactor, Payload.getD, pyInt, pyFloat]
    all_goals decide
  · norm_num [build_recommendations, build_recommendations_core, Payload.getD,
      pyInt, pyFloat, RISK_THRESHOLD, String.intercalate]
    all_goals decide

/-- Claim C6: the high-risk scenario `{missing_14d:3, avg_grade_pct:60,
days_inactive:8, submitted_14d:0}` clamps to risk 1, classifies HIGH, and
yields the nine recommendation strings in source order. -/
theorem high_risk_scenario :
    compute_risk [(("missing_14d"), PyVal.int 3), (("avg_grade_pct"), PyVal.int 60),
        (("days_inactive"), PyVal.int 8), (("submitted_14d"), PyVal.int 0)] =
      Except.ok ((1 : ℚ),
        [("3+ missing assignments (14d)"), ("Average grade < 70%"), ("Inactive 7+ days")]) ∧
    risk_level 1 = "HIGH" ∧
    build_recommendations [(("missing_14d"), PyVal.int 3), (("avg_grade_pct"), PyVal.int 60),
        (("days_inactive"), PyVal.int 8), (("submitted_14d"), PyVal.int 0)] 1
        [("3+ missing assignments (14d)"), ("Average grade < 70%"), ("Inactive 7+ days")] =
      Except.ok
        ["Make a 48-hour plan to complete the missing assignments (start with the highest-weight items).",
         "Email the instructor to confirm deadlines and ask what to prioritize first.",
         "Block 45–60 minutes daily for targeted practice on weak topics (quiz + review mistakes).",
         "Attend office hours or tutoring this week with 3 specific questions prepared.",
         "Log in today and complete one small task (discussion post, quiz attempt, or reading notes) to restart momentum.",
         "Create a weekly schedule: 3 study sessions + 1 catch-up session, and track completion.",
         "Use active recall: summarize each module in 5 bullets, then self-test without notes.",
         "Start with the easiest assignment to build confidence, then move to the next due item.",
         "Why this plan: 3+ missing assignments (14d), Average grade < 70%, Inactive 7+ days."] := by
  refine ⟨?_, ?_, ?_⟩
  · norm_num +decide [compute_risk, compute_risk_core, _missing_to_score, _grade_to_score,
      _days_inactive_to_score, appendFactor, Payload.getD, pyInt, pyFloat]
  · norm_num +decide [risk_level, RISK_THRESHOLD]
  · norm_num +decide [build_recommendations, build_recommendations_core, Payload.getD,
      pyInt, pyFloat, RISK_THRESHOLD, String.intercalate]

/-- Claim C3 counterexample: a present non-numeric signal value (JSON null)
makes both entry points raise instead of defaulting to 0. -/
theorem non_numeric_signal_raises :
    compute_risk [(("missing_14d"), PyVal.none)] =
      Except.error ("int() argument must not be None") ∧
    build_recommendations [(("submitted_14d"), PyVal.none)] 0 [] =
      Except.error ("int() argument must not be None") := by
  constructor
  · norm_num +decide [compute_risk, Payload.getD, pyInt, pyFloat]
  · norm_num +decide [build_recommendations, Payload.getD, pyInt, pyFloat]

/-- Claim C3 (amended): signal keys that are absent are treated as the
default 0 and both entry points return a normal result, but a present
non-numeric value (such as JSON null) raises and the error propagates. -/
theorem absent_signals_default (p : Payload) (risk : ℚ) (factors : List String)
    (h1 : List.find? (fun kv => kv.1 == "missing_14d") p = Option.none)
    (h2 : List.find? (fun kv => kv.1 == "avg_grade_pct") p = Option.none)
    (h3 : List.find? (fun kv => kv.1 == "days_inactive") p = Option.none)
    (h4 : List.find? (fun kv => kv.1 == "submitted_14d") p = Option.none) :
    compute_risk p = Except.ok (compute_risk_core 0 0 0) ∧
    build_recommendations p risk factors =
      Except.ok (build_recommendations_core 0 0 0 0 risk factors) ∧
    compute_risk [(("days_inactive"), PyVal.none)] =
      Except.error ("float() argument must not be None") := by
  have g1 := getD_of_find_none (d := PyVal.int 0) h1
  have g2 := getD_of_find_none (d := PyVal.int 0) h2
  have g3 := getD_of_find_none (d := PyVal.int 0) h3
  have g4 := getD_of_find_none (d := PyVal.int 0) h4
  refine ⟨?_, ?_, ?_⟩
  · unfold compute_risk
    rw [g1, g2, g3]
    norm_num +decide [pyInt, pyFloat]
  · unfold build_recommendations
    rw [g1, g2, g3, g4]
    norm_num +decide [pyInt, pyFloat]
  · norm_num +decide [compute_risk, Payload.getD, pyInt, pyFloat]

/-- Witness for the amended C3 at the empty payload. -/
theorem absent_signals_default_witness :
    (compute_risk [] = Except.ok (compute_risk_core 0 0 0) ∧
     build_recommendations [] 0 [] =
       Except.ok (build_recommendations_core 0 0 0 0 0 []) ∧
     compute_risk [(("days_inactive"), PyVal.none)] =
       Except.error ("float() argument must not be None")) :=
  absent_signals_default [] 0 [] rfl rfl rfl rfl
